import Mathlib

/-!
Verification development for the DARN verification–probing–scoring–persistence
pipeline.  Each component of the Python source (`core/scoring.py`,
`core/verify.py`, `core/probe.py`, `core/store.py`, `main.py`) is shallowly
embedded as executable Lean definitions; network and clock effects are passed
in explicitly as oracle values, and SQLite tables are modelled as Lean lists.
-/

namespace DARN

/-! ### A small JSON value model (for parsed `resp.json()` payloads) -/

/-- A JSON value, as produced by a successful `resp.json()` call. -/
inductive JVal where
  | jnull
  | jbool (b : Bool)
  | jnum (q : ℚ)
  | jstr (s : String)
  | jarr (items : List JVal)
  | jobj (fields : List (String × JVal))

/-- Python `dict.get(k)` on a JSON value: a field lookup that yields `none`
on a non-object or a missing key. -/
def jget : JVal → String → Option JVal
  | JVal.jobj fields, k => (fields.find? (fun f => f.1 == k)).map (fun f => f.2)
  | _, _ => none

/-- Extract a string provided the value is a JSON string
(Python `isinstance(v, str)` guard). -/
def jstr? : Option JVal → Option String
  | some (JVal.jstr s) => some s
  | _ => none

/-! ### Python string primitives

Modelled on the character list of the string (Lean's byte-position-based
`String` primitives are extensionally the same but do not reduce in the
kernel). -/

/-- Python `s.startswith(pre)`. -/
def py_startswith (s pre : String) : Bool := pre.toList.isPrefixOf s.toList

/-- Python `s.rstrip("/")`. -/
def rstrip_slash (s : String) : String :=
  String.mk ((s.toList.reverse.dropWhile (fun c => c == '/')).reverse)

/-- Python `s.lower()`. -/
def py_lower (s : String) : String := String.mk (s.toList.map Char.toLower)

/-- Python `s.strip()`. -/
def py_strip (s : String) : String :=
  String.mk (((s.toList.dropWhile Char.isWhitespace).reverse.dropWhile
    Char.isWhitespace).reverse)

/-- Python `s.split()`: maximal runs of non-whitespace characters. -/
def py_split_ws (s : String) : List String :=
  ((s.toList.splitOnP Char.isWhitespace).map String.mk).filter (fun t => !(t == ""))

/-! ### Scorer (`core/scoring.py`) -/

namespace Scoring

def MAX_SCORE : ℚ := 100
def BASE_OK_SCORE : ℚ := 60
def MODEL_BONUS_WEIGHT : ℚ := 12
def MODEL_BONUS_CAP : ℚ := 20
def LATENCY_TARGET_MS : ℚ := 500
def LATENCY_PENALTY_MAX : ℚ := 40

/-- A verification record as consumed by the scorer: the `ok`, `models` and
`latency_ms` entries of the result dict, each `none` when the key is absent
or holds `None`. -/
structure VRec where
  ok : Option Bool
  models : Option (List String)
  latency_ms : Option ℚ
deriving DecidableEq, Repr

/-- Python truthiness of the `ok` entry (`None`/missing and `False` are falsy). -/
def truthy : Option Bool → Bool
  | some b => b
  | none => false

/-- `_model_bonus`.  `math.log10` is transcendental, so the embedding takes the
logarithm as an explicit parameter `L`; every theorem below is proved for all
`L`, hence in particular for base-10 logarithm. -/
def model_bonus (L : ℚ → ℚ) (models : List String) : ℚ :=
  let names := models.filter (fun m => !(m == ""))
  if names.isEmpty then 0
  else min (MODEL_BONUS_WEIGHT * L (1 + (names.length : ℚ))) MODEL_BONUS_CAP

/-- `_latency_penalty`: zero at or under the 500 ms target, linear above it,
capped at 40. -/
def latency_penalty (latency_ms : Option ℚ) : ℚ :=
  match latency_ms with
  | none => 0
  | some v =>
    if v ≤ 0 then 0
    else min (max 0 ((v / LATENCY_TARGET_MS - 1) * (LATENCY_PENALTY_MAX / 2)))
        LATENCY_PENALTY_MAX

/-- `score_verification`: 0 for a non-ok record, otherwise base + model bonus
− latency penalty, clamped into `[0, MAX_SCORE]`. -/
def score_verification (L : ℚ → ℚ) (rec : VRec) : ℚ :=
  if !(truthy rec.ok) then 0
  else
    let models := rec.models.getD []
    max 0 (min (BASE_OK_SCORE + model_bonus L models - latency_penalty rec.latency_ms)
        MAX_SCORE)

/-- `rank_verifications`: attach a score to every record, then stable-sort
best-score first.  Python `sorted(..., key=score, reverse=True)` is a stable
sort; `List.mergeSort` with this comparison is the same stable sort. -/
def rank_verifications (L : ℚ → ℚ) (records : List VRec) : List (VRec × ℚ) :=
  ((records.map (fun r => (r, score_verification L r))).mergeSort
    (fun a b => decide (b.2 ≤ a.2)))

end Scoring

/-! ### HTTP oracle values

A single HTTP round trip either raises a transport exception
(`requests.RequestException` / timeout / refused connection / DNS failure),
carrying the exception message, or yields a response with a status code, the
raw body text and the outcome of `resp.json()` (`Except.error detail` models a
`ValueError` raised by the JSON parser, `detail` its message). -/
inductive HttpResp where
  | exn (msg : String)
  | resp (status : Nat) (text : String) (json : Except String JVal)

/-! ### Verifier (`core/verify.py`) -/

namespace Verify

def DEFAULT_PORT : Nat := 11434

/-- `_build_url`: respect an existing scheme (stripping trailing slashes),
treat a single-colon host as `host:port`, otherwise append the default port. -/
def build_url (host : String) (port : Nat) (path : String) : String :=
  if py_startswith host "http://" || py_startswith host "https://" then
    rstrip_slash host ++ path
  else if host.toList.contains ':' && host.toList.count ':' == 1 then
    "http://" ++ host ++ path
  else
    "http://" ++ host ++ ":" ++ toString port ++ path

/-- `_extract_models`: names of the `models` array entries that are objects
carrying a string `name`; anything non-conforming is dropped. -/
def extract_models (payload : JVal) : List String :=
  match jget payload "models" with
  | some (JVal.jarr items) => items.filterMap (fun item => jstr? (jget item "name"))
  | _ => []

def PREFERRED_PROBE_MODELS : List String :=
  ["phi", "qwen2.5:0.5b", "qwen2.5:1.5b", "llama3.2:1b"]

/-- `_pick_probe_model`: first model matching a preferred prefix (preference
order first, then input order), else the first model. -/
def pick_probe_model (models : List String) : Option String :=
  let normalized := models.filter (fun m => !(m == ""))
  match PREFERRED_PROBE_MODELS.findSome?
      (fun preferred => normalized.find? (fun m => m.startsWith preferred)) with
  | some m => some m
  | none => normalized.head?

/-- `_looks_like_language`: length in `[3,200]` and more than half of the
whitespace-delimited tokens contain a letter. -/
def looks_like_language (text : String) : Bool :=
  if text.toList.length < 3 || text.toList.length > 200 then false
  else
    let tokens := py_split_ws text
    let alphaish := tokens.countP (fun token => token.toList.any Char.isAlpha)
    decide (((alphaish : ℚ) / (max tokens.length 1 : ℚ)) > 1 / 2)

/-- The network- and clock-facing inputs of one `verify_endpoint` call:
the result of the metadata `GET /api/tags`, the latency measured for it,
the result of `POST /api/chat` for a chosen model, and the optional
geolocation lookup. -/
structure Geo where
  lat : ℚ
  lon : ℚ
  city : Option String
  region : Option String
  country : Option String
deriving DecidableEq, Repr

structure VerifyWorld where
  tags : HttpResp
  tags_latency : Nat
  chat : String → HttpResp
  geo : Option Geo

/-- `_inference_probe`: `POST /api/chat`, returning `message.content` when the
call succeeds with status 200 and a JSON object body. -/
def inference_probe (w : VerifyWorld) (model : String) : Option String :=
  match w.chat model with
  | HttpResp.exn _ => none
  | HttpResp.resp status _ json =>
    if status != 200 then none
    else
      match json with
      | Except.error _ => none
      | Except.ok data => jstr? ((jget data "message").bind (fun m => jget m "content"))

/-- A verification outcome dict.  `error` is `none` when the key is absent
(success path); geolocation fields are `none` unless the lookup filled them. -/
structure VOut where
  ip : String
  ok : Bool
  models : List String
  latency_ms : Option Nat
  error : Option String
  lat : Option ℚ
  lon : Option ℚ
  city : Option String
  region : Option String
  country : Option String
deriving DecidableEq, Repr

/-- The failure outcome shape shared by all error branches. -/
def failOut (ip : String) (models : List String) (latency_ms : Option Nat)
    (error : String) : VOut :=
  ⟨ip, false, models, latency_ms, some error, none, none, none, none, none⟩

/-- `verify_endpoint`: metadata fetch, model extraction, inference sanity
check, then optional geolocation enrichment. -/
def verify_endpoint (w : VerifyWorld) (ip : String) : VOut :=
  match w.tags with
  | HttpResp.exn msg => failOut ip [] none msg
  | HttpResp.resp status _ json =>
    let latency_ms : Option Nat := some w.tags_latency
    if status != 200 then failOut ip [] latency_ms ("status " ++ toString status)
    else
      match json with
      | Except.error detail => failOut ip [] latency_ms ("invalid json: " ++ detail)
      | Except.ok payload =>
        let models := extract_models payload
        match pick_probe_model models with
        | none => failOut ip models latency_ms "no_probe_model"
        | some probe_model =>
          match inference_probe w probe_model with
          | none => failOut ip models latency_ms "inference_gibberish"
          | some reply =>
            if reply == "" || !(looks_like_language reply) then
              failOut ip models latency_ms "inference_gibberish"
            else
              match w.geo with
              | none => ⟨ip, true, models, latency_ms, none, none, none, none, none, none⟩
              | some g =>
                ⟨ip, true, models, latency_ms, none, some g.lat, some g.lon,
                  g.city, g.region, g.country⟩

end Verify

/-! ### Prober (`core/probe.py`) -/

namespace Probe

def DEFAULT_PORT : Nat := 11434

def PROBE_PREFERENCE : List String := ["llama3", "phi", "mistral", "qwen"]

/-- `_build_url` (same rule as the Verifier, different default path). -/
def build_url (host : String) (port : Nat) (path : String) : String :=
  if py_startswith host "http://" || py_startswith host "https://" then
    rstrip_slash host ++ path
  else if host.toList.contains ':' && host.toList.count ':' == 1 then
    "http://" ++ host ++ path
  else
    "http://" ++ host ++ ":" ++ toString port ++ path

/-- Python `a or b` over an optionally-present string (`None` and `""` fall
through to the fallback). -/
def py_or_str (v : Option String) (fallback : String) : String :=
  match v with
  | some s => if s == "" then fallback else s
  | none => fallback

/-- `_extract_response_text`: prefer the JSON `response` field, then the
nested `message.content`, then the raw body text.  Non-string JSON values in
those fields are outside the model (the source would `str()` them). -/
def extract_response_text (text : String) (json : Except String JVal) : String :=
  match json with
  | Except.error _ => text
  | Except.ok data =>
    match data with
    | JVal.jobj _ =>
      py_or_str (jstr? (jget data "response"))
        (py_or_str (jstr? ((jget data "message").bind (fun m => jget m "content"))) text)
    | _ => text

/-- `_is_ping`: lower-case, drop every non-alphabetic character, compare with
`"ping"`. -/
def is_ping (text : String) : Bool :=
  String.mk ((text.toList.map Char.toLower).filter Char.isAlpha) == "ping"

/-- Python dict comprehension lookup of a lower-cased key: the *last* model
whose lower-casing equals `k` wins, as in `{m.lower(): m for m in normalized}`. -/
def lower_lookup (normalized : List String) (k : String) : Option String :=
  normalized.foldl (fun acc m => if py_lower m == k then some m else acc) none

/-- `select_probe_model`: exact case-insensitive match against the preference
list, else the model with the shortest (then lexicographically smallest) name. -/
def select_probe_model (models : List String) : Option String :=
  let normalized := (models.filter (fun m => !(m == ""))).map py_strip
  if normalized.isEmpty then none
  else
    match PROBE_PREFERENCE.findSome? (fun preferred => lower_lookup normalized preferred) with
    | some m => some m
    | none =>
      (normalized.mergeSort (fun a b =>
        decide (a.toList.length < b.toList.length ∨
          (a.toList.length = b.toList.length ∧ a ≤ b)))).headD ""

/-- A probe outcome dict; `body` is `none` on the paths that never reach the
response (missing key). -/
structure POut where
  ip : String
  model : Option String
  success : Bool
  latency_ms : Option Nat
  status_code : Option Nat
  error : Option String
  body : Option String
  ts : Nat
deriving DecidableEq, Repr

/-- `probe_node`: the network oracle `net` gives the result of the single
`POST /api/generate` for the selected model; `now` is `time.time()` and
`elapsed` the measured request latency. -/
def probe_node (net : String → HttpResp) (now elapsed : Nat) (ip : String)
    (available_models : List String) : POut :=
  match select_probe_model available_models with
  | none => ⟨ip, none, false, none, none, some "no models available", none, now⟩
  | some model =>
    match net model with
    | HttpResp.exn msg => ⟨ip, some model, false, none, none, some msg, none, now⟩
    | HttpResp.resp status text json =>
      let text_body := extract_response_text text json
      let success := status == 200 && is_ping text_body
      let error :=
        if success then none
        else if status == 200 then some "unexpected_output"
        else some ("status " ++ toString status)
      ⟨ip, some model, success, some elapsed, some status, error, some text_body, now⟩

end Probe

/-! ### Store (`core/store.py`)

The three SQLite tables are modelled as Lean lists; `executemany` statements
become sequential folds; `conn.total_changes` is the count of row
insertions/updates performed, returned alongside the new database state. -/

namespace Store

/-- One stored row of the `verifications` table (`ip` is the primary key). -/
structure VRow where
  ip : String
  ok : Nat
  models : Option String
  latency_ms : Option Int
  error : Option String
  lat : Option ℚ
  lon : Option ℚ
  city : Option String
  region : Option String
  country : Option String
  checked_at : Nat
deriving DecidableEq, Repr

/-- One stored row of the `probes` table (the autoincrement id is the list
position; `ts` defaults to the insertion timestamp and is untracked here). -/
structure PRow where
  ip : String
  model : Option String
  success : Nat
  latency_ms : Option Int
  status_code : Option Int
  error : Option String
  body : Option String
deriving DecidableEq, Repr

/-- The whole SQLite database. -/
structure DB where
  endpoints : List String
  verifications : List VRow
  probes : List PRow
deriving DecidableEq, Repr

/-- `INSERT OR IGNORE INTO endpoints` via `executemany`: insert each ip that
is not yet present, in order; returns the new table and the number of rows
actually inserted (the `total_changes` contribution). -/
def insert_ignore (eps : List String) : List String → List String × Nat
  | [] => (eps, 0)
  | ip :: rest =>
    if eps.contains ip then insert_ignore eps rest
    else ((insert_ignore (eps ++ [ip]) rest).1, (insert_ignore (eps ++ [ip]) rest).2 + 1)

/-- `json.dumps` on a list of model names (a simple JSON array rendering;
the claims never decode it, only compare serialized values). -/
def json_dumps (models : List String) : String :=
  "[" ++ String.intercalate ", " (models.map (fun s => "\"" ++ s ++ "\"")) ++ "]"

/-- An incoming verification result dict, as read by `store_verifications`
via `item.get(...)`: every field is optional. -/
structure VIn where
  ip : Option String
  ok : Option Bool
  models : Option (List String)
  latency_ms : Option Int
  error : Option String
  lat : Option ℚ
  lon : Option ℚ
  city : Option String
  region : Option String
  country : Option String
deriving DecidableEq, Repr

/-- The tuple appended to `payloads` for one valid record. -/
structure VPayload where
  ip : String
  ok : Nat
  models : Option String
  latency_ms : Option Int
  error : Option String
  lat : Option ℚ
  lon : Option ℚ
  city : Option String
  region : Option String
  country : Option String
deriving DecidableEq, Repr

/-- The payload-building loop body: records lacking an ip (missing or empty
string, Python falsiness) are skipped. -/
def toVPayload (item : VIn) : Option VPayload :=
  match item.ip with
  | none => none
  | some ip =>
    if ip == "" then none
    else
      some ⟨ip, if Scoring.truthy item.ok then 1 else 0, item.models.map json_dumps,
        item.latency_ms, item.error, item.lat, item.lon, item.city, item.region,
        item.country⟩

/-- One `INSERT ... ON CONFLICT(ip) DO UPDATE` statement: replace
`ok`/`models`/`latency_ms`/`error`, `COALESCE` each geolocation column with
the stored value, and stamp `checked_at` with the current time. -/
def upsertVerification (now : Nat) (t : List VRow) (p : VPayload) : List VRow :=
  if t.any (fun r => r.ip == p.ip) then
    t.map (fun r =>
      if r.ip == p.ip then
        ⟨r.ip, p.ok, p.models, p.latency_ms, p.error,
          p.lat.or r.lat, p.lon.or r.lon, p.city.or r.city,
          p.region.or r.region, p.country.or r.country, now⟩
      else r)
  else
    t ++ [⟨p.ip, p.ok, p.models, p.latency_ms, p.error,
      p.lat, p.lon, p.city, p.region, p.country, now⟩]

/-- `store_verifications`: build payloads, ensure endpoints exist
(insert-or-ignore), then upsert each verification; returns the new database
and `conn.total_changes - before` (endpoint insertions plus one change per
payload row, since `ON CONFLICT ... DO UPDATE` counts either way). -/
def store_verifications (now : Nat) (db : DB) (results : List VIn) : DB × Nat :=
  if results.isEmpty then (db, 0)
  else
    let payloads := results.filterMap toVPayload
    let eps := insert_ignore db.endpoints (payloads.map (fun p => p.ip))
    let verifs := payloads.foldl (upsertVerification now) db.verifications
    (⟨eps.1, verifs, db.probes⟩, eps.2 + payloads.length)

/-- An incoming probe result dict, as read by `store_probes`; the
`isinstance` guards of the source make each non-ip field `none` whenever the
stored value has the wrong type. -/
structure PIn where
  ip : Option String
  model : Option String
  success : Option Bool
  latency_ms : Option Int
  status_code : Option Int
  error : Option String
  body : Option String
deriving DecidableEq, Repr

/-- The payload-building loop body of `store_probes`. -/
def toPPayload (item : PIn) : Option PRow :=
  match item.ip with
  | none => none
  | some ip =>
    if ip == "" then none
    else
      some ⟨ip, item.model, if Scoring.truthy item.success then 1 else 0,
        item.latency_ms, item.status_code, item.error, item.body⟩

/-- `store_probes`: build payloads, ensure endpoints exist (insert-or-ignore),
append every payload as a fresh `probes` row; returns the new database and
`conn.total_changes - before` (endpoint insertions plus probe insertions). -/
def store_probes (db : DB) (results : List PIn) : DB × Nat :=
  if results.isEmpty then (db, 0)
  else
    let payloads := results.filterMap toPPayload
    if payloads.isEmpty then (db, 0)
    else
      let eps := insert_ignore db.endpoints (payloads.map (fun p => p.ip))
      (⟨eps.1, db.verifications, db.probes ++ payloads⟩, eps.2 + payloads.length)

/-- A record as returned by `fetch_verifications` and consumed by the CSV
dump (projected onto the six exported columns). -/
structure CsvRec where
  ip : String
  ok : Bool
  models : List String
  latency_ms : Option Int
  error : Option String
  checked_at : Nat
deriving DecidableEq, Repr

def csvHeader : List String := ["ip", "ok", "models", "latency_ms", "error", "checked_at"]

/-- `csv` rendering of one optional value (`None` is written as the empty
field). -/
def csvOpt (v : Option String) : String := v.getD ""

/-- One data row of the CSV snapshot: models are flattened to a
comma-joined string. -/
def csvRow (rec : CsvRec) : List String :=
  [rec.ip, if rec.ok then "True" else "False", String.intercalate "," rec.models,
    csvOpt (rec.latency_ms.map toString), csvOpt rec.error, toString rec.checked_at]

/-- `dump_verifications_csv` over the already-fetched records.  `abspath`
stands for `os.path.abspath`.  The second component is the file write
performed: `none` means no file was written at all.  With no records the
source returns the absolute path *before* opening the file, so nothing is
written. -/
def dump_verifications_csv (records : List CsvRec) (abspath : String → String)
    (file_path : String) : String × Option (List (List String)) :=
  if records.isEmpty then (abspath file_path, none)
  else (abspath file_path, some (csvHeader :: records.map csvRow))

end Store

/-! ### Orchestrator (`main.py`) -/

namespace Main

/-- The probe-stage candidate filter of `main`:
`[r for r in results if r.get("ok") and r.get("models")]`. -/
def probe_candidates (results : List Verify.VOut) : List Verify.VOut :=
  results.filter (fun r => r.ok && !r.models.isEmpty)

end Main

/-! ### Concrete oracle worlds used in witnesses and counterexamples -/

/-- A concrete world whose metadata fetch times out. -/
def w_timeout : DARN.Verify.VerifyWorld :=
  ⟨DARN.HttpResp.exn "timed out", 0, fun _ => DARN.HttpResp.exn "x", none⟩

/-- A concrete world returning HTTP 200 with an unparsable body. -/
def w_invalid_json : DARN.Verify.VerifyWorld :=
  ⟨DARN.HttpResp.resp 200 "<html>" (Except.error "Expecting value"), 7,
    fun _ => DARN.HttpResp.exn "x", none⟩

/-- Concrete stored verification row for the C1 witness. -/
def w_row : DARN.Store.VRow :=
  ⟨"9.9.9.9", 1, some "x", some 5, none, some 1, some 2, some "c", none, some "d", 11⟩

/-- Concrete database for the C1 witness. -/
def w_db : DARN.Store.DB := ⟨["9.9.9.9"], [w_row], []⟩

/-- Concrete incoming verification record (null geo fields except `lon` and
`city`) for the C1 witness. -/
def w_rec : DARN.Store.VIn :=
  ⟨some "9.9.9.9", some false, none, none, some "err", none, some 3, some "newcity",
    none, none⟩

/-- The claim's sticky-field relation: the result equals the incoming value
when it is non-null, and keeps the stored value when the incoming value is
null. -/
def sticky {α : Type} (incoming stored result : Option α) : Prop :=
  (incoming = none → result = stored) ∧ ∀ v, incoming = some v → result = some v

/-! ### Helper lemmas -/

/-- In a list whose keys are pairwise distinct, at most one element matches
any given key. -/
theorem countP_le_one_of_nodup_map {α β : Type} [BEq β] [LawfulBEq β] (key : α → β)
    (t : List α) (h : (t.map key).Nodup) (j : β) :
    t.countP (fun r => key r == j) ≤ 1 := by
  induction t with
  | nil => simp
  | cons r rest ih =>
    rw [List.map_cons, List.nodup_cons] at h
    rw [List.countP_cons]
    by_cases hj : (key r == j) = true
    · have h0 : rest.countP (fun x => key x == j) = 0 := by
        rw [List.countP_eq_zero]
        intro x hx hpred
        apply h.1
        rw [List.mem_map]
        exact ⟨x, hx, by rw [eq_of_beq hpred, eq_of_beq hj]⟩
      rw [h0, hj]
      simp
    · rw [Bool.not_eq_true] at hj
      rw [hj]
      simpa using ih h.2

/-- Updating (by a key-preserving function) the unique element holding key
`i` makes `find?` return its image. -/
theorem find?_map_upd {α β : Type} [BEq β] [LawfulBEq β] (key : α → β) (g : α → α)
    (hg : ∀ r, key (g r) = key r) (i : β) :
    ∀ (t : List α) (old : α), old ∈ t → key old = i → (t.map key).Nodup →
      (t.map (fun r => if key r == i then g r else r)).find?
        (fun r => key r == i) = some (g old) := by
  intro t
  induction t with
  | nil => intro old hmem _ _; exact absurd hmem (List.not_mem_nil old)
  | cons r rest ih =>
    intro old hmem hkey hnd
    rw [List.map_cons, List.nodup_cons] at hnd
    rw [List.map_cons]
    by_cases hr : (key r == i) = true
    · have holdr : old = r := by
        rcases List.mem_cons.mp hmem with h | h
        · exact h
        · exfalso
          apply hnd.1
          rw [List.mem_map]
          exact ⟨old, h, by rw [hkey, eq_of_beq hr]⟩
      have hpg : (key (g r) == i) = true := by rw [hg r]; exact hr
      rw [if_pos hr, holdr, List.find?_cons, hpg]
    · have holdm : old ∈ rest := by
        rcases List.mem_cons.mp hmem with h | h
        · exfalso
          rw [h] at hkey
          exact hr (beq_iff_eq.mpr hkey)
        · exact h
      rw [Bool.not_eq_true] at hr
      rw [if_neg (by rw [hr]; exact Bool.false_ne_true), List.find?_cons, hr]
      exact ih old holdm hkey hnd.2

/-- A key-preserving conditional update leaves the key column unchanged. -/
theorem map_key_upd {α β : Type} [BEq β] (key : α → β) (g : α → α)
    (hg : ∀ r, key (g r) = key r) (i : β) (t : List α) :
    (t.map (fun r => if key r == i then g r else r)).map key = t.map key := by
  induction t with
  | nil => rfl
  | cons r rest ih =>
    simp only [List.map_cons, ih]
    congr 1
    split
    · exact hg r
    · rfl

/-- `Char.ofNat` of a scalar value below the surrogate range round-trips
through `toNat`. -/
theorem char_toNat_ofNat_of_lt {m : Nat} (h : m < 55296) : (Char.ofNat m).toNat = m := by
  have hv : m.isValidChar := Or.inl h
  simp [Char.ofNat, dif_pos hv, Char.ofNatAux, Char.toNat, UInt32.toNat]

theorem uint32_le_iff_toNat_le {a b : UInt32} : a ≤ b ↔ a.toNat ≤ b.toNat := by
  simp [UInt32.le_def, BitVec.le_def, UInt32.toNat]

/-- `Char.isAlpha` in terms of the scalar value. -/
theorem char_isAlpha_toNat (c : Char) :
    c.isAlpha = ((65 ≤ c.toNat && c.toNat ≤ 90) || (97 ≤ c.toNat && c.toNat ≤ 122)) := by
  have h1 : decide ((65 : UInt32) ≤ c.val) = decide (65 ≤ c.toNat) := by
    rw [decide_eq_decide, uint32_le_iff_toNat_le]
    exact Iff.rfl
  have h2 : decide (c.val ≤ (90 : UInt32)) = decide (c.toNat ≤ 90) := by
    rw [decide_eq_decide, uint32_le_iff_toNat_le]
    exact Iff.rfl
  have h3 : decide ((97 : UInt32) ≤ c.val) = decide (97 ≤ c.toNat) := by
    rw [decide_eq_decide, uint32_le_iff_toNat_le]
    exact Iff.rfl
  have h4 : decide (c.val ≤ (122 : UInt32)) = decide (c.toNat ≤ 122) := by
    rw [decide_eq_decide, uint32_le_iff_toNat_le]
    exact Iff.rfl
  simp only [Char.isAlpha, Char.isUpper, Char.isLower, GE.ge]
  rw [h1, h2, h3, h4]

/-- `Char.toLower` in terms of the scalar value. -/
theorem char_toLower_toNat (c : Char) :
    c.toLower.toNat = if 65 ≤ c.toNat ∧ c.toNat ≤ 90 then c.toNat + 32 else c.toNat := by
  simp only [Char.toLower]
  split
  · rename_i h
    have hlt : c.toNat + 32 < 55296 := by omega
    rw [char_toNat_ofNat_of_lt hlt]
  · rfl

/-- Lower-casing a character does not change whether it is alphabetic. -/
theorem isAlpha_toLower (c : Char) : c.toLower.isAlpha = c.isAlpha := by
  rw [char_isAlpha_toNat, char_isAlpha_toNat, char_toLower_toNat]
  by_cases h : 65 ≤ c.toNat ∧ c.toNat ≤ 90
  · rw [if_pos h]
    have e1 : (65 ≤ c.toNat + 32 && c.toNat + 32 ≤ 90) = false := by
      rw [Bool.and_eq_false_iff]
      right
      simp only [decide_eq_false_iff_not]
      omega
    have e2 : (97 ≤ c.toNat + 32 && c.toNat + 32 ≤ 122) = true := by
      rw [Bool.and_eq_true]
      exact ⟨by simp only [decide_eq_true_eq]; omega, by simp only [decide_eq_true_eq]; omega⟩
    have e3 : (65 ≤ c.toNat && c.toNat ≤ 90) = true := by
      rw [Bool.and_eq_true]
      exact ⟨by simp only [decide_eq_true_eq]; omega, by simp only [decide_eq_true_eq]; omega⟩
    rw [e1, e2, e3]
    simp
  · rw [if_neg h]

/-- `insert_ignore` grows the endpoint table by exactly its reported
insertion count. -/
theorem insert_ignore_length (l : List String) : ∀ eps : List String,
    (DARN.Store.insert_ignore eps l).1.length =
      eps.length + (DARN.Store.insert_ignore eps l).2 := by
  induction l with
  | nil => intro eps; rfl
  | cons ip rest ih =>
    intro eps
    by_cases h : eps.contains ip
    · rw [DARN.Store.insert_ignore, if_pos h]
      exact ih eps
    · rw [DARN.Store.insert_ignore, if_neg h]
      have hrec := ih (eps ++ [ip])
      simp only [List.length_append, List.length_cons, List.length_nil] at hrec
      show (DARN.Store.insert_ignore (eps ++ [ip]) rest).1.length =
        eps.length + ((DARN.Store.insert_ignore (eps ++ [ip]) rest).2 + 1)
      omega

/-- `insert_ignore` inserts at least one row when some requested ip is not
yet present. -/
theorem insert_ignore_pos (l : List String) : ∀ (eps : List String) (ip : String),
    ip ∈ l → eps.contains ip = false → 1 ≤ (DARN.Store.insert_ignore eps l).2 := by
  induction l with
  | nil => intro eps ip hmem; exact absurd hmem (List.not_mem_nil ip)
  | cons hd rest ih =>
    intro eps ip hmem hni
    by_cases h : eps.contains hd
    · rw [DARN.Store.insert_ignore, if_pos h]
      rcases List.mem_cons.mp hmem with he | hr
      · rw [he] at hni
        rw [hni] at h
        exact Bool.noConfusion h
      · exact ih eps ip hr hni
    · rw [DARN.Store.insert_ignore, if_neg h]
      show 1 ≤ (DARN.Store.insert_ignore (eps ++ [hd]) rest).2 + 1
      omega

/-- A `filterMap` whose function succeeds on every element preserves length. -/
theorem length_filterMap_all_some {α β : Type} (f : α → Option β) (l : List α)
    (h : ∀ x ∈ l, (f x).isSome) : (l.filterMap f).length = l.length := by
  induction l with
  | nil => rfl
  | cons x rest ih =>
    rw [List.filterMap_cons]
    rcases ho : f x with _ | b
    · exact absurd (ho ▸ h x (List.mem_cons_self x rest)) (by simp)
    · rw [List.length_cons, ih (fun y hy => h y (List.mem_cons_of_mem x hy))]
      rfl

/-! ### C1: upsert replaces health fields, geolocation is sticky -/

/-- **C1.** Upserting a verification over an existing record with the same
ip replaces `ok`/`models`/`latency_ms`/`error` with the incoming values and
stamps `checked_at`, while each geolocation field keeps the stored value
exactly when the incoming one is null; afterwards at most one verification
row exists per ip. -/
theorem store_verifications_upsert_sticky
    (db : DARN.Store.DB) (now : Nat) (rec : DARN.Store.VIn) (i : String)
    (old : DARN.Store.VRow)
    (hnd : (db.verifications.map DARN.Store.VRow.ip).Nodup)
    (hold : old ∈ db.verifications) (hkey : old.ip = i)
    (hrec : rec.ip = some i) (hne : i ≠ "") :
    (∃ r : DARN.Store.VRow,
      (DARN.Store.store_verifications now db [rec]).1.verifications.find?
        (fun x => x.ip == i) = some r ∧
      r.ok = (if DARN.Scoring.truthy rec.ok then 1 else 0) ∧
      r.models = rec.models.map DARN.Store.json_dumps ∧
      r.latency_ms = rec.latency_ms ∧
      r.error = rec.error ∧
      r.checked_at = now ∧
      DARN.sticky rec.lat old.lat r.lat ∧
      DARN.sticky rec.lon old.lon r.lon ∧
      DARN.sticky rec.city old.city r.city ∧
      DARN.sticky rec.region old.region r.region ∧
      DARN.sticky rec.country old.country r.country) ∧
    (∀ j : String,
      (DARN.Store.store_verifications now db [rec]).1.verifications.countP
        (fun x => x.ip == j) ≤ 1) := by
  have hpay : DARN.Store.toVPayload rec = some
      ⟨i, if DARN.Scoring.truthy rec.ok then 1 else 0,
        rec.models.map DARN.Store.json_dumps, rec.latency_ms, rec.error,
        rec.lat, rec.lon, rec.city, rec.region, rec.country⟩ := by
    have hbeq : (i == "") = false := beq_eq_false_iff_ne.mpr hne
    simp only [DARN.Store.toVPayload, hrec, hbeq, Bool.false_eq_true, if_false]
  have hverifs : (DARN.Store.store_verifications now db [rec]).1.verifications =
      DARN.Store.upsertVerification now db.verifications
        ⟨i, if DARN.Scoring.truthy rec.ok then 1 else 0,
          rec.models.map DARN.Store.json_dumps, rec.latency_ms, rec.error,
          rec.lat, rec.lon, rec.city, rec.region, rec.country⟩ := by
    simp only [DARN.Store.store_verifications, List.isEmpty_cons, Bool.false_eq_true,
      if_false, List.filterMap_cons, hpay, List.filterMap_nil, List.foldl_cons,
      List.foldl_nil]
  have hany : db.verifications.any (fun r => r.ip == i) = true :=
    List.any_eq_true.mpr ⟨old, hold, beq_iff_eq.mpr hkey⟩
  have hup : DARN.Store.upsertVerification now db.verifications
      ⟨i, if DARN.Scoring.truthy rec.ok then 1 else 0,
        rec.models.map DARN.Store.json_dumps, rec.latency_ms, rec.error,
        rec.lat, rec.lon, rec.city, rec.region, rec.country⟩ =
      db.verifications.map (fun r =>
        if r.ip == i then
          ⟨r.ip, if DARN.Scoring.truthy rec.ok then 1 else 0,
            rec.models.map DARN.Store.json_dumps, rec.latency_ms, rec.error,
            rec.lat.or r.lat, rec.lon.or r.lon, rec.city.or r.city,
            rec.region.or r.region, rec.country.or r.country, now⟩
        else r) := by
    rw [DARN.Store.upsertVerification, if_pos hany]
  have hg : ∀ r : DARN.Store.VRow,
      DARN.Store.VRow.ip
        (⟨r.ip, if DARN.Scoring.truthy rec.ok then 1 else 0,
          rec.models.map DARN.Store.json_dumps, rec.latency_ms, rec.error,
          rec.lat.or r.lat, rec.lon.or r.lon, rec.city.or r.city,
          rec.region.or r.region, rec.country.or r.country, now⟩ : DARN.Store.VRow) =
        r.ip := fun _ => rfl
  constructor
  · refine ⟨⟨old.ip, if DARN.Scoring.truthy rec.ok then 1 else 0,
      rec.models.map DARN.Store.json_dumps, rec.latency_ms, rec.error,
      rec.lat.or old.lat, rec.lon.or old.lon, rec.city.or old.city,
      rec.region.or old.region, rec.country.or old.country, now⟩, ?_, rfl, rfl, rfl,
      rfl, rfl, ?_, ?_, ?_, ?_, ?_⟩
    · rw [hverifs, hup]
      exact find?_map_upd DARN.Store.VRow.ip _ hg i db.verifications old hold hkey hnd
    · exact ⟨fun h => by rw [h]; rfl, fun v h => by rw [h]; rfl⟩
    · exact ⟨fun h => by rw [h]; rfl, fun v h => by rw [h]; rfl⟩
    · exact ⟨fun h => by rw [h]; rfl, fun v h => by rw [h]; rfl⟩
    · exact ⟨fun h => by rw [h]; rfl, fun v h => by rw [h]; rfl⟩
    · exact ⟨fun h => by rw [h]; rfl, fun v h => by rw [h]; rfl⟩
  · intro j
    apply countP_le_one_of_nodup_map
    rw [hverifs, hup, map_key_upd DARN.Store.VRow.ip _ hg i]
    exact hnd

/-- Witness for C1 at a concrete store: the incoming record nulls `lat`,
`region` and `country` (kept from the stored row) and sets `lon` and `city`. -/
theorem store_verifications_upsert_sticky_witness :
    ((w_db.verifications.map DARN.Store.VRow.ip).Nodup ∧
     w_row ∈ w_db.verifications ∧ w_row.ip = "9.9.9.9" ∧
     w_rec.ip = some "9.9.9.9" ∧ "9.9.9.9" ≠ "") ∧
    ((∃ r : DARN.Store.VRow,
      (DARN.Store.store_verifications 42 w_db [w_rec]).1.verifications.find?
        (fun x => x.ip == "9.9.9.9") = some r ∧
      r.ok = (if DARN.Scoring.truthy w_rec.ok then 1 else 0) ∧
      r.models = w_rec.models.map DARN.Store.json_dumps ∧
      r.latency_ms = w_rec.latency_ms ∧
      r.error = w_rec.error ∧
      r.checked_at = 42 ∧
      DARN.sticky w_rec.lat w_row.lat r.lat ∧
      DARN.sticky w_rec.lon w_row.lon r.lon ∧
      DARN.sticky w_rec.city w_row.city r.city ∧
      DARN.sticky w_rec.region w_row.region r.region ∧
      DARN.sticky w_rec.country w_row.country r.country) ∧
     (∀ j : String,
      (DARN.Store.store_verifications 42 w_db [w_rec]).1.verifications.countP
        (fun x => x.ip == j) ≤ 1)) :=
  ⟨⟨by decide, by decide, rfl, rfl, by decide⟩,
    store_verifications_upsert_sticky w_db 42 w_rec "9.9.9.9" w_row
      (by decide) (by decide) rfl rfl (by decide)⟩

/-! ### C2: score range -/

/-- **C2.** For every verification record (and every modelling of `log10`),
`score_verification` lies in `[0, 100]`, and a record whose `ok` field is
`False` or absent scores exactly 0. -/
theorem score_verification_in_range (L : ℚ → ℚ) (rec : DARN.Scoring.VRec) :
    0 ≤ DARN.Scoring.score_verification L rec ∧
    DARN.Scoring.score_verification L rec ≤ 100 ∧
    ((rec.ok = some false ∨ rec.ok = none) → DARN.Scoring.score_verification L rec = 0) := by
  refine ⟨?_, ?_, ?_⟩
  · by_cases h : DARN.Scoring.truthy rec.ok
    · simp only [DARN.Scoring.score_verification, h, Bool.not_true, Bool.false_eq_true,
        if_false]
      exact le_max_left _ _
    · simp [DARN.Scoring.score_verification, h]
  · by_cases h : DARN.Scoring.truthy rec.ok
    · simp only [DARN.Scoring.score_verification, h, Bool.not_true, Bool.false_eq_true,
        if_false]
      refine max_le (by norm_num) ?_
      refine (min_le_right _ _).trans ?_
      norm_num [DARN.Scoring.MAX_SCORE]
    · simp [DARN.Scoring.score_verification, h]
  · intro h
    have hf : DARN.Scoring.truthy rec.ok = false := by
      rcases h with h | h <;> simp [DARN.Scoring.truthy, h]
    simp [DARN.Scoring.score_verification, hf]

/-- Witness for C2 at a concrete record with `ok = False`. -/
theorem score_verification_in_range_witness :
    ((some false : Option Bool) = some false ∨ (some false : Option Bool) = none) ∧
    DARN.Scoring.score_verification (fun q => q) ⟨some false, none, none⟩ = 0 :=
  ⟨Or.inl rfl,
    (score_verification_in_range (fun q => q) ⟨some false, none, none⟩).2.2 (Or.inl rfl)⟩

/-! ### C4: URL builder -/

/-- **C4.** The URL builder shared by Verifier and Prober: an explicit
`http://`/`https://` scheme is kept with trailing slashes stripped; a host
with exactly one colon is used as `host:port`; otherwise the given default
port is appended.  Includes the spec examples and agreement of the two
copies. -/
theorem build_url_characterization :
    (∀ host port path,
      (DARN.py_startswith host "http://" || DARN.py_startswith host "https://") = true →
      DARN.Verify.build_url host port path = DARN.rstrip_slash host ++ path) ∧
    (∀ host port path,
      (DARN.py_startswith host "http://" || DARN.py_startswith host "https://") = false →
      host.toList.count ':' = 1 →
      DARN.Verify.build_url host port path = "http://" ++ host ++ path) ∧
    (∀ host port path,
      (DARN.py_startswith host "http://" || DARN.py_startswith host "https://") = false →
      host.toList.count ':' ≠ 1 →
      DARN.Verify.build_url host port path =
        "http://" ++ host ++ ":" ++ toString port ++ path) ∧
    (∀ host port path, DARN.Probe.build_url host port path =
      DARN.Verify.build_url host port path) ∧
    DARN.Verify.build_url "10.0.0.5" 11434 "/api/tags" = "http://10.0.0.5:11434/api/tags" ∧
    DARN.Verify.build_url "10.0.0.5:8080" 11434 "/api/tags" = "http://10.0.0.5:8080/api/tags" ∧
    DARN.Probe.build_url "https://h.example" 11434 "/api/generate" =
      "https://h.example/api/generate" := by
  refine ⟨?_, ?_, ?_, ?_, by decide, by decide, by decide⟩
  · intro host port path h
    rw [DARN.Verify.build_url, if_pos h]
  · intro host port path h hcount
    rw [DARN.Verify.build_url, if_neg (by simp [h]), if_pos ?_]
    rw [Bool.and_eq_true]
    constructor
    · have hmem : ':' ∈ host.toList := by
        rw [← List.count_pos_iff, hcount]
        omega
      exact List.elem_eq_true_of_mem hmem
    · rw [hcount]
      rfl
  · intro host port path h hcount
    rw [DARN.Verify.build_url, if_neg (by simp [h]), if_neg ?_]
    rw [Bool.and_eq_true]
    rintro ⟨-, hc⟩
    rw [beq_iff_eq] at hc
    exact hcount hc
  · intro host port path
    rw [DARN.Probe.build_url, DARN.Verify.build_url]

/-- Witness for C4 on the three host shapes. -/
theorem build_url_characterization_witness :
    (DARN.py_startswith "http://x//" "http://" ||
      DARN.py_startswith "http://x//" "https://") = true ∧
    DARN.Verify.build_url "http://x//" 11434 "/p" = DARN.rstrip_slash "http://x//" ++ "/p" ∧
    (DARN.py_startswith "a:1" "http://" || DARN.py_startswith "a:1" "https://") = false ∧
    "a:1".toList.count ':' = 1 ∧
    DARN.Verify.build_url "a:1" 11434 "/p" = "http://a:1/p" ∧
    DARN.Verify.build_url "a" 11434 "/p" = "http://a:11434/p" :=
  ⟨by decide, build_url_characterization.1 "http://x//" 11434 "/p" (by decide),
    by decide, by decide,
    build_url_characterization.2.1 "a:1" 11434 "/p" (by decide) (by decide),
    build_url_characterization.2.2.1 "a" 11434 "/p" (by decide) (by decide)⟩

/-! ### C7: ping normalization -/

/-- **C7.** The probe ping check succeeds exactly when the response text,
with every non-alphabetic character removed and the rest lower-cased, is
`"ping"`; `"PING"` and `" P i n g! "` match, `"pong"` and `""` do not. -/
theorem is_ping_characterization (text : String) :
    (DARN.Probe.is_ping text = true ↔
      String.mk ((text.toList.filter Char.isAlpha).map Char.toLower) = "ping") ∧
    DARN.Probe.is_ping "PING" = true ∧
    DARN.Probe.is_ping " P i n g! " = true ∧
    DARN.Probe.is_ping "pong" = false ∧
    DARN.Probe.is_ping "" = false := by
  refine ⟨?_, by decide, by decide, by decide, by decide⟩
  rw [DARN.Probe.is_ping, beq_iff_eq]
  have hcomm : (text.toList.map Char.toLower).filter Char.isAlpha =
      (text.toList.filter Char.isAlpha).map Char.toLower := by
    rw [List.filter_map]
    congr 1
    apply List.filter_congr
    intro c _
    exact isAlpha_toLower c
  rw [hcomm]

/-! ### C3: ranking is sorted and stable -/

/-- **C3.** `rank_verifications` returns the score-enriched records in
non-increasing score order, as a permutation of the enriched input, and any
two entries with equal scores keep their relative input order (stability). -/
theorem rank_verifications_sorted_stable (L : ℚ → ℚ) (records : List DARN.Scoring.VRec) :
    (DARN.Scoring.rank_verifications L records).Pairwise (fun a b => b.2 ≤ a.2) ∧
    (DARN.Scoring.rank_verifications L records).Perm
      (records.map (fun r => (r, DARN.Scoring.score_verification L r))) ∧
    (∀ a b : DARN.Scoring.VRec × ℚ, a.2 = b.2 →
      List.Sublist [a, b] (records.map (fun r => (r, DARN.Scoring.score_verification L r))) →
      List.Sublist [a, b] (DARN.Scoring.rank_verifications L records)) := by
  have htrans : ∀ a b c : DARN.Scoring.VRec × ℚ,
      (fun a b : DARN.Scoring.VRec × ℚ => decide (b.2 ≤ a.2)) a b →
      (fun a b : DARN.Scoring.VRec × ℚ => decide (b.2 ≤ a.2)) b c →
      (fun a b : DARN.Scoring.VRec × ℚ => decide (b.2 ≤ a.2)) a c := by
    intro a b c hab hbc
    exact decide_eq_true (le_trans (of_decide_eq_true hbc) (of_decide_eq_true hab))
  have htotal : ∀ a b : DARN.Scoring.VRec × ℚ,
      ((fun a b : DARN.Scoring.VRec × ℚ => decide (b.2 ≤ a.2)) a b ||
       (fun a b : DARN.Scoring.VRec × ℚ => decide (b.2 ≤ a.2)) b a) := by
    intro a b
    rw [Bool.or_eq_true]
    rcases le_total b.2 a.2 with h | h
    · exact Or.inl (decide_eq_true h)
    · exact Or.inr (decide_eq_true h)
  refine ⟨?_, List.mergeSort_perm _ _, ?_⟩
  · have hp := List.sorted_mergeSort htrans htotal
      (records.map (fun r => (r, DARN.Scoring.score_verification L r)))
    exact hp.imp (fun h => of_decide_eq_true h)
  · intro a b hab hsub
    exact List.pair_sublist_mergeSort htrans htotal (decide_eq_true (le_of_eq hab.symm)) hsub

/-- Witness for C3: two equal-score records keep their input order. -/
theorem rank_verifications_sorted_stable_witness :
    ((⟨some false, none, none⟩, (0 : ℚ)) : DARN.Scoring.VRec × ℚ).2 =
      ((⟨some false, some ["m"], none⟩, (0 : ℚ)) : DARN.Scoring.VRec × ℚ).2 ∧
    List.Sublist
      [((⟨some false, none, none⟩ : DARN.Scoring.VRec), (0 : ℚ)),
       ((⟨some false, some ["m"], none⟩ : DARN.Scoring.VRec), (0 : ℚ))]
      ([(⟨some false, none, none⟩ : DARN.Scoring.VRec),
        (⟨some false, some ["m"], none⟩ : DARN.Scoring.VRec)].map
        (fun r => (r, DARN.Scoring.score_verification (fun q => q) r))) ∧
    List.Sublist
      [((⟨some false, none, none⟩ : DARN.Scoring.VRec), (0 : ℚ)),
       ((⟨some false, some ["m"], none⟩ : DARN.Scoring.VRec), (0 : ℚ))]
      (DARN.Scoring.rank_verifications (fun q => q)
        [(⟨some false, none, none⟩ : DARN.Scoring.VRec),
         (⟨some false, some ["m"], none⟩ : DARN.Scoring.VRec)]) := by
  have hmap : ([(⟨some false, none, none⟩ : DARN.Scoring.VRec),
      (⟨some false, some ["m"], none⟩ : DARN.Scoring.VRec)].map
      (fun r => (r, DARN.Scoring.score_verification (fun q => q) r))) =
      [((⟨some false, none, none⟩ : DARN.Scoring.VRec), (0 : ℚ)),
       ((⟨some false, some ["m"], none⟩ : DARN.Scoring.VRec), (0 : ℚ))] := by
    decide
  have hsub : List.Sublist
      [((⟨some false, none, none⟩ : DARN.Scoring.VRec), (0 : ℚ)),
       ((⟨some false, some ["m"], none⟩ : DARN.Scoring.VRec), (0 : ℚ))]
      ([(⟨some false, none, none⟩ : DARN.Scoring.VRec),
        (⟨some false, some ["m"], none⟩ : DARN.Scoring.VRec)].map
        (fun r => (r, DARN.Scoring.score_verification (fun q => q) r))) := by
    rw [hmap]
  exact ⟨rfl, hsub,
    (rank_verifications_sorted_stable (fun q => q)
      [⟨some false, none, none⟩, ⟨some false, some ["m"], none⟩]).2.2 _ _ rfl hsub⟩

/-! ### C8: probe with an empty model list -/

/-- **C8.** A probe call with an empty model list immediately yields
`success=false`, `error="no models available"`, null latency and status code,
and consults the network oracle (and the latency clock) not at all. -/
theorem probe_node_no_models (net net2 : String → DARN.HttpResp)
    (now elapsed elapsed2 : Nat) (ip : String) :
    DARN.Probe.probe_node net now elapsed ip [] =
      ⟨ip, none, false, none, none, some "no models available", none, now⟩ ∧
    DARN.Probe.probe_node net now elapsed ip [] =
      DARN.Probe.probe_node net2 now elapsed2 ip [] := by
  have hsel : DARN.Probe.select_probe_model [] = none := rfl
  constructor
  · rw [DARN.Probe.probe_node, hsel]
  · rw [DARN.Probe.probe_node, DARN.Probe.probe_node, hsel]

/-! ### C9: CSV export with no records -/

/-- Counterexample for C9 as stated: with no records, the export returns the
target path but performs *no* file write — not even a header-only CSV with
zero data rows. -/
theorem dump_csv_empty_counterexample :
    DARN.Store.dump_verifications_csv [] (fun s => s) "verifications.csv" =
      ("verifications.csv", none) ∧
    (DARN.Store.dump_verifications_csv [] (fun s => s) "verifications.csv").2 ≠
      some [DARN.Store.csvHeader] := by
  constructor
  · rfl
  · intro h
    exact Option.noConfusion h

/-- **C9 (amended).** When the verification table holds no records,
`exportCsv` does not fail: it returns the (absolute) target path and writes
no file at all, leaving any existing file untouched. -/
theorem dump_csv_empty_returns_path (abspath : String → String) (file_path : String) :
    DARN.Store.dump_verifications_csv [] abspath file_path = (abspath file_path, none) :=
  rfl

/-! ### C5: transport error on metadata fetch -/

/-- **C5.** A transport failure on the metadata fetch yields `ok=false`,
`latencyMs=null`, the transport message as `error`, an empty model list, and
the outcome is excluded from the orchestrator's probe stage whatever the
surrounding batch. -/
theorem verify_transport_error_excluded (w : DARN.Verify.VerifyWorld) (ip msg : String)
    (h : w.tags = DARN.HttpResp.exn msg) :
    (DARN.Verify.verify_endpoint w ip).ok = false ∧
    (DARN.Verify.verify_endpoint w ip).latency_ms = none ∧
    (DARN.Verify.verify_endpoint w ip).error = some msg ∧
    (DARN.Verify.verify_endpoint w ip).models = [] ∧
    ∀ results : List DARN.Verify.VOut,
      DARN.Verify.verify_endpoint w ip ∉ DARN.Main.probe_candidates results := by
  have hout : DARN.Verify.verify_endpoint w ip = DARN.Verify.failOut ip [] none msg := by
    rw [DARN.Verify.verify_endpoint, h]
  refine ⟨by rw [hout]; rfl, by rw [hout]; rfl, by rw [hout]; rfl, by rw [hout]; rfl, ?_⟩
  intro results hmem
  rw [DARN.Main.probe_candidates, List.mem_filter, hout] at hmem
  exact Bool.noConfusion (Bool.and_eq_true_iff.mp hmem.2).1

/-- Witness for C5 at `w_timeout`. -/
theorem verify_transport_error_excluded_witness :
    w_timeout.tags = DARN.HttpResp.exn "timed out" ∧
    ((DARN.Verify.verify_endpoint w_timeout "1.2.3.4").ok = false ∧
     (DARN.Verify.verify_endpoint w_timeout "1.2.3.4").latency_ms = none ∧
     (DARN.Verify.verify_endpoint w_timeout "1.2.3.4").error = some "timed out" ∧
     (DARN.Verify.verify_endpoint w_timeout "1.2.3.4").models = [] ∧
     DARN.Verify.verify_endpoint w_timeout "1.2.3.4" ∉
       DARN.Main.probe_candidates [DARN.Verify.verify_endpoint w_timeout "1.2.3.4"]) := by
  have h := verify_transport_error_excluded w_timeout "1.2.3.4" "timed out" rfl
  exact ⟨rfl, h.1, h.2.1, h.2.2.1, h.2.2.2.1, h.2.2.2.2 _⟩

/-! ### C6: invalid JSON body -/

/-- Counterexample for C6 as stated: the source tags the error with
`"invalid json: "` (a space), not `"invalid_json: "`. -/
theorem verify_invalid_json_counterexample :
    (DARN.Verify.verify_endpoint w_invalid_json "1.2.3.4").ok = false ∧
    (DARN.Verify.verify_endpoint w_invalid_json "1.2.3.4").error =
      some "invalid json: Expecting value" ∧
    (DARN.Verify.verify_endpoint w_invalid_json "1.2.3.4").error ≠
      some "invalid_json: Expecting value" := by
  refine ⟨rfl, rfl, ?_⟩
  intro h
  rw [show (DARN.Verify.verify_endpoint w_invalid_json "1.2.3.4").error =
    some "invalid json: Expecting value" from rfl] at h
  have : ("invalid json: Expecting value" = "invalid_json: Expecting value") :=
    Option.some.inj h
  exact absurd this (by decide)

/-- **C6 (amended).** A 200 metadata response whose body fails JSON parsing
yields `ok=false` and `error = "invalid json: <detail>"` (the source uses a
space after `invalid`, not an underscore), with the measured latency and an
empty model list. -/
theorem verify_invalid_json_error (w : DARN.Verify.VerifyWorld) (ip text detail : String)
    (h : w.tags = DARN.HttpResp.resp 200 text (Except.error detail)) :
    (DARN.Verify.verify_endpoint w ip).ok = false ∧
    (DARN.Verify.verify_endpoint w ip).error = some ("invalid json: " ++ detail) ∧
    (DARN.Verify.verify_endpoint w ip).models = [] ∧
    (DARN.Verify.verify_endpoint w ip).latency_ms = some w.tags_latency := by
  have hout : DARN.Verify.verify_endpoint w ip =
      DARN.Verify.failOut ip [] (some w.tags_latency) ("invalid json: " ++ detail) := by
    rw [DARN.Verify.verify_endpoint, h]
    rfl
  exact ⟨by rw [hout]; rfl, by rw [hout]; rfl, by rw [hout]; rfl, by rw [hout]; rfl⟩

/-- **C10.** `store_probes` returns the number of probe rows inserted plus
the number of endpoint rows newly created by the preceding insert-or-ignore
step; consequently, when every record carries an ip and some ip is not yet a
stored endpoint, the returned count strictly exceeds the number of probe
records. -/
theorem store_probes_count (db : DARN.Store.DB) (results : List DARN.Store.PIn) :
    ((DARN.Store.store_probes db results).2 =
      ((DARN.Store.store_probes db results).1.probes.length - db.probes.length) +
      ((DARN.Store.store_probes db results).1.endpoints.length - db.endpoints.length)) ∧
    ((∀ r ∈ results, ∃ s, r.ip = some s ∧ s ≠ "") →
     (∃ r ∈ results, ∃ s, r.ip = some s ∧ s ≠ "" ∧ db.endpoints.contains s = false) →
     results.length < (DARN.Store.store_probes db results).2) := by
  have hpayload_some : ∀ r : DARN.Store.PIn, (∃ s, r.ip = some s ∧ s ≠ "") →
      ∃ p, DARN.Store.toPPayload r = some p ∧ ∃ s, r.ip = some s ∧ p.ip = s := by
    intro r ⟨s, hs, hne⟩
    refine ⟨⟨s, r.model, if DARN.Scoring.truthy r.success then 1 else 0,
      r.latency_ms, r.status_code, r.error, r.body⟩, ?_, s, hs, rfl⟩
    rw [DARN.Store.toPPayload, hs]
    simp only [beq_iff_eq, if_neg hne]
  constructor
  · by_cases hres : results.isEmpty
    · rw [DARN.Store.store_probes, if_pos hres]
      simp
    · rw [DARN.Store.store_probes, if_neg hres]
      by_cases hpay : (results.filterMap DARN.Store.toPPayload).isEmpty
      · rw [if_pos hpay]
        simp
      · rw [if_neg hpay]
        have hlen := insert_ignore_length
          ((results.filterMap DARN.Store.toPPayload).map (fun p => p.ip)) db.endpoints
        simp only [List.length_append]
        omega
  · intro hall ⟨r0, hr0, s0, hs0, hne0, hnc0⟩
    have hres : results.isEmpty = false := by
      cases results with
      | nil => exact absurd hr0 (List.not_mem_nil r0)
      | cons a l => rfl
    have hplen : (results.filterMap DARN.Store.toPPayload).length = results.length := by
      apply length_filterMap_all_some
      intro x hx
      obtain ⟨p, hp, -⟩ := hpayload_some x (hall x hx)
      rw [hp]
      rfl
    have hpay : (results.filterMap DARN.Store.toPPayload).isEmpty = false := by
      rcases he : (results.filterMap DARN.Store.toPPayload) with _ | ⟨a, l⟩
      · exfalso
        rw [he] at hplen
        simp only [List.length_nil] at hplen
        have hnil : results = [] := List.eq_nil_of_length_eq_zero hplen.symm
        rw [hnil] at hr0
        exact absurd hr0 (List.not_mem_nil r0)
      · rfl
    obtain ⟨p0, hp0, s0x, hs0x, hps⟩ := hpayload_some r0 ⟨s0, hs0, hne0⟩
    have hs0eq : p0.ip = s0 := by
      rw [hs0] at hs0x
      rw [hps, Option.some.inj hs0x]
    have hmem : s0 ∈ (results.filterMap DARN.Store.toPPayload).map (fun p => p.ip) := by
      rw [List.mem_map]
      exact ⟨p0, List.mem_filterMap.mpr ⟨r0, hr0, hp0⟩, hs0eq⟩
    have hpos := insert_ignore_pos
      ((results.filterMap DARN.Store.toPPayload).map (fun p => p.ip)) db.endpoints s0
      hmem hnc0
    rw [DARN.Store.store_probes, if_neg (by rw [hres]; exact Bool.false_ne_true),
      if_neg (by rw [hpay]; exact Bool.false_ne_true)]
    show results.length <
      (DARN.Store.insert_ignore db.endpoints
        ((results.filterMap DARN.Store.toPPayload).map (fun p => p.ip))).2 +
      (results.filterMap DARN.Store.toPPayload).length
    omega

/-- Witness for C10: one probe record with a fresh ip yields a count of 2. -/
theorem store_probes_count_witness :
    (∀ r ∈ ([⟨some "2.2.2.2", some "m", some true, some 5, some 200, none, some "ping"⟩] :
        List DARN.Store.PIn), ∃ s, r.ip = some s ∧ s ≠ "") ∧
    (∃ r ∈ ([⟨some "2.2.2.2", some "m", some true, some 5, some 200, none, some "ping"⟩] :
        List DARN.Store.PIn), ∃ s, r.ip = some s ∧ s ≠ "" ∧
        (["1.1.1.1"] : List String).contains s = false) ∧
    ([⟨some "2.2.2.2", some "m", some true, some 5, some 200, none, some "ping"⟩] :
      List DARN.Store.PIn).length <
      (DARN.Store.store_probes ⟨["1.1.1.1"], [], []⟩
        [⟨some "2.2.2.2", some "m", some true, some 5, some 200, none, some "ping"⟩]).2 :=
  ⟨by decide, by decide,
    (store_probes_count ⟨["1.1.1.1"], [], []⟩
      [⟨some "2.2.2.2", some "m", some true, some 5, some 200, none, some "ping"⟩]).2
      (by decide) (by decide)⟩

/-- Witness for the amended C6 at `w_invalid_json`. -/
theorem verify_invalid_json_error_witness :
    w_invalid_json.tags = DARN.HttpResp.resp 200 "<html>" (Except.error "Expecting value") ∧
    ((DARN.Verify.verify_endpoint w_invalid_json "1.2.3.4").ok = false ∧
     (DARN.Verify.verify_endpoint w_invalid_json "1.2.3.4").error =
       some ("invalid json: " ++ "Expecting value") ∧
     (DARN.Verify.verify_endpoint w_invalid_json "1.2.3.4").models = [] ∧
     (DARN.Verify.verify_endpoint w_invalid_json "1.2.3.4").latency_ms =
       some w_invalid_json.tags_latency) :=
  ⟨rfl, verify_invalid_json_error w_invalid_json "1.2.3.4" "<html>" "Expecting value" rfl⟩

end DARN
